import Mathlib

/-!
Formal model of the document-analyzer RAG pipeline (studyrag), shallowly
embedding the JavaScript source:

* `src/services/vectorService.js`: the in-process LRU embedding cache
  (`setCache` / `getCachedVector`), `addChunks`, `cosineSimilarity`,
  `parseVectorForChunk` and `similaritySearch`;
* `src/services/indexingService.js`: `indexPdfById` (document indexing
  orchestration and failure handling);
* `src/services/jobQueue.js`: the in-memory job queue (`addJob` and one
  iteration of `processQueue`);
* `src/services/ragService.js`: answer normalization
  (`stripMarkdownFormatting`, `parseStructuredSections`,
  `formatStructuredAnswer`, `normalizeAnswerPayload`), generation fallback
  (`generateTextWithFallback`) and `runChatQuery`.

JavaScript numbers are modelled by rationals (`ℚ`) for data stored in the
database and by real numbers (`ℝ`) for similarity scores (the score needs
`Real.sqrt`); SQLite tables are modelled as Lean lists of row structures;
the module-level mutable caches/queues are modelled by explicit state
passing.  UUIDs and ISO timestamps are modelled as naturals (only identity
and relative order of timestamps matter to the modelled code).
-/

namespace StudyRag

/-! ### LRU embedding cache (vectorService.js)

The source keeps `const embeddingCache = new Map()` with limit
`EMBEDDING_CACHE_LIMIT = 400`.  A JavaScript `Map` preserves insertion
order and never holds two entries with the same key; we model it as an
association list ordered from least-recently-inserted (front) to
most-recently-inserted (back). -/

def EMBEDDING_CACHE_LIMIT : Nat := 400

/-- A JavaScript `Map`, as an insertion-ordered association list. -/
abbrev CacheMap (K V : Type) := List (K × V)

/-- `Map.prototype.get` (also used for `Map.prototype.has`): the value at
the first entry whose key matches, if any. -/
def mapLookup {K V : Type} [DecidableEq K] (k : K) : CacheMap K V → Option V
  | [] => none
  | e :: rest => if e.1 = k then some e.2 else mapLookup k rest

/-- `Map.prototype.delete`: removes the (unique) entry with key `k`,
keeping the order of the remaining entries. -/
def mapDelete {K V : Type} [DecidableEq K] (k : K) (c : CacheMap K V) : CacheMap K V :=
  c.eraseP (fun e => decide (e.1 = k))

/-- The `while (embeddingCache.size > EMBEDDING_CACHE_LIMIT)` loop of
`setCache`: repeatedly drop the oldest entry
(`embeddingCache.keys().next().value` is the front of the map). -/
def trimCache {K V : Type} (c : CacheMap K V) : CacheMap K V :=
  if _h : c.length > EMBEDDING_CACHE_LIMIT then trimCache c.tail else c
termination_by c.length
decreasing_by
  simp only [List.length_tail]
  omega

/-- `setCache(id, vector)` from vectorService.js: delete the key if present,
re-insert at most-recent position, then evict oldest entries while the size
exceeds the limit. -/
def setCache {K V : Type} [DecidableEq K] (id : K) (vector : V) (c : CacheMap K V) :
    CacheMap K V :=
  let afterDelete := if (mapLookup id c).isSome then mapDelete id c else c
  trimCache (afterDelete ++ [(id, vector)])

/-- `getCachedVector(id)` from vectorService.js: `null` on a miss; on a hit,
delete and re-insert the entry (moving it to most-recently-used) and return
its value.  Returns the looked-up value together with the updated cache. -/
def getCachedVector {K V : Type} [DecidableEq K] (id : K) (c : CacheMap K V) :
    Option V × CacheMap K V :=
  match mapLookup id c with
  | none => (none, c)
  | some value => (some value, mapDelete id c ++ [(id, value)])

/-- One cache operation, for stating invariants over arbitrary operation
sequences against the two exported cache mutators. -/
inductive CacheOp (K V : Type) where
  | set (id : K) (vector : V)
  | get (id : K)

/-- Run a sequence of cache operations from a starting cache state. -/
def runCacheOps {K V : Type} [DecidableEq K] : List (CacheOp K V) → CacheMap K V → CacheMap K V
  | [], c => c
  | CacheOp.set id v :: rest, c => runCacheOps rest (setCache id v c)
  | CacheOp.get id :: rest, c => runCacheOps rest (getCachedVector id c).2

/-! ### Vector math (vectorService.js `cosineSimilarity`)

Embedding vectors are stored as JSON arrays of numbers; we model a vector
as a list of rationals and the similarity score as a real number (the JS
`Math.sqrt` over floats is idealized as `Real.sqrt`). -/

/-- An embedding vector. -/
abbrev Vec := List ℚ

/-- The `dot` accumulator of `cosineSimilarity` (meaningful when the length
check has passed). -/
def dotProduct (a b : Vec) : ℚ := (List.zipWith (· * ·) a b).sum

/-- The `magA` / `magB` accumulators of `cosineSimilarity`: sum of squares. -/
def sumSquares (a : Vec) : ℚ := (a.map (fun x => x * x)).sum

/-- `cosineSimilarity(a, b)` from vectorService.js.  The source first
returns the sentinel `-1` when either argument is not an array or the
lengths differ (both arguments are always arrays in this model), computes
`dot`, `magA`, `magB` in one loop, returns `-1` when either magnitude is
zero, else `dot / (Math.sqrt(magA) * Math.sqrt(magB))`.  It never throws. -/
noncomputable def cosineSimilarity (a b : Vec) : ℝ :=
  if a.length ≠ b.length then -1
  else if sumSquares a = 0 ∨ sumSquares b = 0 then -1
  else (dotProduct a b : ℝ) / (Real.sqrt (sumSquares a) * Real.sqrt (sumSquares b))

/-- The Euclidean magnitude `|a|` of a vector, as the spec writes it
(`Cosine similarity: dot(a,b) / (|a| * |b|)`). -/
noncomputable def magnitude (a : Vec) : ℝ := Real.sqrt (sumSquares a)

/-! ### The chunks table and `addChunks` (vectorService.js) -/

/-- A row of the `chunks` table.  `id` is a UUID in the source, modelled as
a natural drawn from a counter; `embedding` holds JSON text, modelled as
`some v` when that text parses to an array (`JSON.parse` of what
`addChunks` stored always does) and `none` otherwise; `createdAt` is an ISO
timestamp, modelled as a natural with the same ordering. -/
structure ChunkRow where
  id : Nat
  sessionId : Nat
  pdfId : Option Nat
  text : String
  embedding : Option Vec
  embeddingVectorLength : Nat
  createdAt : Nat
deriving DecidableEq

/-- One element of the `items` argument of `addChunks`.  `embedding` is
`some v` when `Array.isArray(row.embedding)` holds.  Callers also attach a
`chunkKey` (indexingService computes a content hash); `addChunks` never
reads it. -/
structure ChunkItem where
  text : String
  embedding : Option Vec
  chunkKey : String
deriving DecidableEq

/-- The argument object of `addChunks`.  Callers (indexingService, tests,
routes) pass `replacePdfChunks`; the function's parameter destructuring
`{ sessionId, pdfId, items }` ignores it. -/
structure AddChunksArgs where
  sessionId : Nat
  pdfId : Option Nat
  items : List ChunkItem
  replacePdfChunks : Bool
deriving DecidableEq

/-- The vector store state: the `chunks` table rows in insertion order,
plus the UUID supply. -/
structure ChunkDb where
  rows : List ChunkRow
  nextId : Nat
deriving DecidableEq

/-- The row-insertion loop inside `addChunks`' transaction: each item is
stored with a fresh id, the shared `now` timestamp, embedding JSON
`JSON.stringify(Array.isArray(row.embedding) ? row.embedding : [])` (which
always re-parses to an array) and its length. -/
def insertChunkRows (sessionId : Nat) (pdfId : Option Nat) (now : Nat) :
    List ChunkItem → Nat → List ChunkRow
  | [], _ => []
  | item :: rest, nextId =>
    { id := nextId
      sessionId := sessionId
      pdfId := pdfId
      text := item.text
      embedding := some (item.embedding.getD [])
      embeddingVectorLength := (item.embedding.getD []).length
      createdAt := now } :: insertChunkRows sessionId pdfId now rest (nextId + 1)

/-- `addChunks({ sessionId, pdfId, items })` from vectorService.js: inserts
one row per item inside a transaction and returns `items.length`.  It does
not delete any existing rows and does not store the items' `chunkKey`
(the INSERT's column list omits it). -/
def addChunks (args : AddChunksArgs) (now : Nat) (db : ChunkDb) : ChunkDb × Nat :=
  ({ rows := db.rows ++ insertChunkRows args.sessionId args.pdfId now args.items db.nextId
     nextId := db.nextId + args.items.length },
   args.items.length)

/-! ### `similaritySearch` (vectorService.js) -/

/-- The comparator of the SQL `ORDER BY createdAt DESC` in
`selectChunksBySessionStmt`. -/
def createdAtDescLe (a b : ChunkRow) : Bool := decide (b.createdAt ≤ a.createdAt)

/-- `selectChunksBySessionStmt.all(sessionId, limit, offset)`:
`SELECT ... FROM chunks WHERE sessionId = ? ORDER BY createdAt DESC
LIMIT ? OFFSET ?`.  Rows with equal `createdAt` keep table order (SQLite
scans in rowid order; modelled by a stable sort). -/
def selectChunksBySession (db : ChunkDb) (sessionId limit offset : Nat) : List ChunkRow :=
  ((((db.rows.filter (fun r => decide (r.sessionId = sessionId))).mergeSort
      createdAtDescLe).drop offset).take limit)

/-- `parseVectorForChunk(chunk)` from vectorService.js: consult the LRU
cache first (a hit also moves the entry to most-recent); on a miss,
`JSON.parse` the stored embedding (modelled by the `Option`), cache an
array result, and return `null` for non-arrays or parse failures. -/
def parseVectorForChunk (chunk : ChunkRow) (cache : CacheMap Nat Vec) :
    Option Vec × CacheMap Nat Vec :=
  match getCachedVector chunk.id cache with
  | (some cached, cache') => (some cached, cache')
  | (none, _) =>
    match chunk.embedding with
    | some parsed => (some parsed, setCache chunk.id parsed cache)
    | none => (none, cache)

/-- A retrieval candidate as built inside `similaritySearch`'s `.map`. -/
structure Candidate where
  chunkId : Nat
  pdfId : Option Nat
  text : String
  score : ℝ

/-- The `.map` stage of `similaritySearch` over the fetched page: `null`
for rows whose vector does not parse, otherwise a scored candidate.  The
closure mutates the module-level cache; the cache state is threaded
left-to-right as `Array.prototype.map` evaluates. -/
noncomputable def scoreRows (queryEmbedding : Vec) :
    List ChunkRow → CacheMap Nat Vec → List (Option Candidate) × CacheMap Nat Vec
  | [], cache => ([], cache)
  | row :: rest, cache =>
    let parsed := parseVectorForChunk row cache
    let cand : Option Candidate :=
      match parsed.1 with
      | none => none
      | some vector =>
        some { chunkId := row.id
               pdfId := row.pdfId
               text := row.text
               score := cosineSimilarity queryEmbedding vector }
    let restResult := scoreRows queryEmbedding rest parsed.2
    (cand :: restResult.1, restResult.2)

/-- The comparator of `.sort((a, b) => b.score - a.score)`: descending by
score; V8's sort is stable, modelled by a stable merge sort. -/
noncomputable def scoreDescLe (a b : Candidate) : Bool :=
  @decide _ (Classical.propDecidable (b.score ≤ a.score))

/-- The argument object of `similaritySearch` with its source defaults
(`topK = 5`, `limit = 300`, `offset = 0`).  Callers that pass `pageSize`
(ragService, the retrieval-accuracy test) hit the defaults: the
destructuring `{ sessionId, queryEmbedding, topK, limit, offset }` has no
`pageSize` binding, so that argument is ignored. -/
structure SearchArgs where
  sessionId : Nat
  queryEmbedding : Vec
  topK : Nat := 5
  limit : Nat := 300
  offset : Nat := 0

/-- `similaritySearch` from vectorService.js: fetch one page of rows
(`limit`/`offset` — there is no loop over further pages), score each row,
drop `null`s and candidates whose score is not finite or is negative
(`item && Number.isFinite(item.score) && item.score >= 0`; scores are
always finite in the real-number model), sort by descending score and take
`topK`.  Returns the candidates with the threaded cache state. -/
noncomputable def similaritySearch (args : SearchArgs) (db : ChunkDb)
    (cache : CacheMap Nat Vec) : List Candidate × CacheMap Nat Vec :=
  let rows := selectChunksBySession db args.sessionId args.limit args.offset
  let scored := scoreRows args.queryEmbedding rows cache
  (((scored.1.reduceOption.filter
      (fun c => @decide _ (Classical.propDecidable (0 ≤ c.score)))).mergeSort
      scoreDescLe).take args.topK,
   scored.2)

/-! ### Indexing orchestration (indexingService.js `indexPdfById`)

`parseFile` (the format parsers), `chunkText` (chunkService.js) and
`generateEmbeddings` (embeddingService.js) are awaited collaborators;
they are modelled by their outcomes.  All parsers raise a typed error on
empty extracted text (`ensureTextNotEmpty`), so "empty text" is a parse
error here.  `markPdfIndexed` / `markPdfFailed` (pdfRecordService.js) set
the document's status; the status written by one run is the first
component of the result. -/

/-- The `status` column of the `pdfs` table as written by
`markPdfIndexed(pdfId, n)` / `markPdfFailed(pdfId)`. -/
inductive DocStatus where
  | indexed (indexedChunks : Nat)
  | failed
deriving DecidableEq

/-- The resolved value of `indexPdfById` (timing fields omitted): the
source returns `{indexedChunks, skipped: true}` when the pdf row is
missing, `{indexedChunks: 0, failed: true}` on zero chunks, and
`{indexedChunks, ...}` on success. -/
structure IndexResult where
  indexedChunks : Nat
  failed : Bool
  skipped : Bool
deriving DecidableEq

/-- The environment of one `indexPdfById` run: whether `getPdfById` finds
the row, the outcome of `parseFile` (`Except.error` models a thrown
error, including the parsers' empty-text errors), the chunker
(chunkService.js is a collaborator; only its output matters here), and
the outcomes of `generateEmbeddings` and of the `addChunks` store write
(`Except.error` models a throw). -/
structure IndexRun where
  pdfExists : Bool
  parseOutcome : Except String String
  chunksOf : String → List String
  embedOutcome : List String → Except String (List Vec)
  storeOutcome : List String → Except String Nat

/-- `indexPdfById` from indexingService.js: returns the document status it
wrote (`none` when the pdf row is missing and nothing is written) and the
function's own outcome (`Except.error` models the re-thrown error of the
`catch` block, which also calls `markPdfFailed`).  On zero chunks the
source calls `markPdfFailed` and returns `{indexedChunks: 0, failed: true}`
without throwing. -/
def indexPdfById (run : IndexRun) : Option DocStatus × Except String IndexResult :=
  if ¬ run.pdfExists then
    (none, Except.ok { indexedChunks := 0, failed := false, skipped := true })
  else
    match run.parseOutcome with
    | Except.error e => (some DocStatus.failed, Except.error e)
    | Except.ok rawText =>
      let chunks := run.chunksOf rawText
      if chunks.length = 0 then
        (some DocStatus.failed, Except.ok { indexedChunks := 0, failed := true, skipped := false })
      else
        match run.embedOutcome chunks with
        | Except.error e => (some DocStatus.failed, Except.error e)
        | Except.ok _vectors =>
          match run.storeOutcome chunks with
          | Except.error e => (some DocStatus.failed, Except.error e)
          | Except.ok inserted =>
            (some (DocStatus.indexed inserted),
             Except.ok { indexedChunks := inserted, failed := false, skipped := false })

/-! ### Job queue (jobQueue.js)

The engine state is the module-level `const queue = []` (pending job ids),
`const jobs = new Map()` and `let sequence = 1`; all of it lives in process
memory — the module touches no table and reads nothing back at startup. -/

/-- The `status` field of a job. -/
inductive JobStatus where
  | queued
  | processing
  | completed
  | failed
deriving DecidableEq

/-- A job record as built by `addJob` (payload, timestamps and metrics
omitted; `result` and `error` keep the handler's result/error message). -/
structure Job where
  id : Nat
  type : String
  status : JobStatus
  attempts : Nat
  maxRetries : Nat
  result : Option String
  error : Option String
deriving DecidableEq

/-- The module-level mutable state of jobQueue.js.  Job ids are
`job_${Date.now()}_${sequence}` strings in the source; only `sequence`
distinguishes them within a process, so ids are modelled by `sequence`. -/
structure QueueState where
  queue : List Nat
  jobs : List (Nat × Job)
  sequence : Nat
deriving DecidableEq

/-- The state jobQueue.js has right after module initialization:
`const queue = []; const jobs = new Map(); let sequence = 1;`. -/
def initialQueueState : QueueState :=
  { queue := [], jobs := [], sequence := 1 }

/-- A process restart re-runs module initialization.  jobQueue.js has no
durable backing store and no startup reload, so whatever the state was
before the restart, the fresh process starts from `initialQueueState`. -/
def restartQueueState (_s : QueueState) : QueueState := initialQueueState

/-- `addJob(payload)` from jobQueue.js: create a job with status
`queued`, `attempts: 0`, `maxRetries: payload.maxRetries || 2`, store it in
the map and push its id on the queue.  Returns the new state and the job. -/
def addJob (type : String) (maxRetries : Option Nat) (s : QueueState) : QueueState × Job :=
  let job : Job :=
    { id := s.sequence
      type := type
      status := JobStatus.queued
      attempts := 0
      maxRetries := maxRetries.getD 2
      result := none
      error := none }
  ({ queue := s.queue ++ [job.id]
     jobs := s.jobs ++ [(job.id, job)]
     sequence := s.sequence + 1 },
   job)

/-- The outcome of `runJob(job)` for one processing iteration: the
resolved result, or the message of the thrown error. -/
inductive HandlerOutcome where
  | success (result : String)
  | failure (message : String)
deriving DecidableEq

/-- The retry backoff base: `const backoffMs = 250 * Math.pow(2, job.attempts - 1)`. -/
def BACKOFF_BASE_MS : Nat := 250

/-- In-place mutation of the job stored in the map (`job.status = ...`
etc. mutate the object held by `jobs`). -/
def updateJob (jobs : List (Nat × Job)) (id : Nat) (f : Job → Job) : List (Nat × Job) :=
  jobs.map (fun e => if e.1 = id then (e.1, f e.2) else e)

/-- One iteration of the `while (queue.length > 0)` loop of
`processQueue`, given the handler outcome: shift the queue; skip ids with
no job record; mark the job `processing` and increment `attempts`; on
success mark `completed` with the result; on failure record the error and
either requeue at the tail after a backoff of `250 * 2^(attempts-1)` ms
(when `attempts <= maxRetries`) or mark `failed`.  The second component
is the awaited backoff delay, when any. -/
def processOneStep (s : QueueState) (outcome : HandlerOutcome) : QueueState × Option Nat :=
  match s.queue with
  | [] => (s, none)
  | jobId :: restQueue =>
    match mapLookup jobId s.jobs with
    | none => ({ s with queue := restQueue }, none)
    | some job =>
      let attempts := job.attempts + 1
      match outcome with
      | HandlerOutcome.success r =>
        ({ s with
            queue := restQueue
            jobs := updateJob s.jobs jobId (fun j =>
              { j with status := JobStatus.completed, attempts := attempts, result := some r }) },
         none)
      | HandlerOutcome.failure e =>
        if attempts ≤ job.maxRetries then
          ({ s with
              queue := restQueue ++ [jobId]
              jobs := updateJob s.jobs jobId (fun j =>
                { j with status := JobStatus.queued, attempts := attempts, error := some e }) },
           some (BACKOFF_BASE_MS * 2 ^ (attempts - 1)))
        else
          ({ s with
              queue := restQueue
              jobs := updateJob s.jobs jobId (fun j =>
                { j with status := JobStatus.failed, attempts := attempts, error := some e }) },
           none)

/-! ### Answer normalization (ragService.js)

The regex-based string pipeline of ragService.js is modelled over
character lists.  Each helper mirrors one `.replace` / `.match` of the
source. -/

/-- The backtick character (code-span delimiter of markdown). -/
def backtickChar : Char := Char.ofNat 96

/-- Remove trailing whitespace from a character list. -/
def dropTrailingWs (l : List Char) : List Char :=
  (l.reverse.dropWhile (fun c => c.isWhitespace)).reverse

/-- JavaScript `String.prototype.trim`: drop leading and trailing
whitespace. -/
def strTrim (s : String) : String :=
  String.mk (dropTrailingWs (s.data.dropWhile (fun c => c.isWhitespace)))

/-- JavaScript `String.prototype.toLowerCase` (ASCII range, which is all
the source compares). -/
def strToLower (s : String) : String := String.mk (s.data.map Char.toLower)

/-- `.replace(/\r\n/g, '\n')`: left-to-right, non-overlapping. -/
def replaceCRLF : List Char → List Char
  | '\r' :: '\n' :: rest => '\n' :: replaceCRLF rest
  | c :: rest => c :: replaceCRLF rest
  | [] => []

/-- Scan for the closing two-character delimiter `mm` (as in `**…**`):
returns the text before it and the text after it.  `.` in the source
regexes does not match a newline, so the scan fails at a newline. -/
def splitTwoCharCloser (m : Char) : List Char → Option (List Char × List Char)
  | c1 :: c2 :: rest =>
    if c1 = m ∧ c2 = m then some ([], rest)
    else if c1 = '\n' then none
    else
      match splitTwoCharCloser m (c2 :: rest) with
      | some (inner, after) => some (c1 :: inner, after)
      | none => none
  | _ => none

/-- `.replace(/\*\*(.*?)\*\*/g, '$1')` (and the `__` variant): replace each
non-overlapping delimited pair with its inner text; an unclosed opening
delimiter is kept and scanning restarts one character later, as the regex
engine does.  The fuel is the input length, which bounds the number of
scanning positions. -/
def removePairedAux (m : Char) : Nat → List Char → List Char
  | 0, l => l
  | _fuel + 1, [] => []
  | fuel + 1, c1 :: rest1 =>
    match rest1 with
    | c2 :: rest =>
      if c1 = m ∧ c2 = m then
        match splitTwoCharCloser m rest with
        | some (inner, after) => inner ++ removePairedAux m fuel after
        | none => c1 :: removePairedAux m fuel rest1
      else c1 :: removePairedAux m fuel rest1
    | [] => [c1]

/-- Entry point for the paired-delimiter replacement. -/
def removePaired (m : Char) (l : List Char) : List Char := removePairedAux m l.length l

/-- Scan for the next occurrence of a single character `d`, splitting the
list around it. -/
def splitAtChar (d : Char) : List Char → Option (List Char × List Char)
  | [] => none
  | c :: rest =>
    if c = d then some ([], rest)
    else
      match splitAtChar d rest with
      | some (inner, after) => some (c :: inner, after)
      | none => none

/-- `.replace(/`([^`]+)`/g, '$1')` with `d` the backtick: the inner text
must be non-empty and free of the delimiter (it may span newlines). -/
def removeCodeSpansAux (d : Char) : Nat → List Char → List Char
  | 0, l => l
  | _fuel + 1, [] => []
  | fuel + 1, c :: rest =>
    if c = d then
      match splitAtChar d rest with
      | some (inner, after) =>
        if inner.isEmpty then c :: removeCodeSpansAux d fuel rest
        else inner ++ removeCodeSpansAux d fuel after
      | none => c :: removeCodeSpansAux d fuel rest
    else c :: removeCodeSpansAux d fuel rest

/-- Entry point for the code-span replacement. -/
def removeCodeSpans (d : Char) (l : List Char) : List Char := removeCodeSpansAux d l.length l

/-- Split a character list into its lines (separator `'\n'`). -/
def splitOnNewline : List Char → List (List Char)
  | [] => [[]]
  | '\n' :: rest => [] :: splitOnNewline rest
  | c :: rest =>
    match splitOnNewline rest with
    | line :: more => (c :: line) :: more
    | [] => [[c]]

/-- Re-join lines with `'\n'`. -/
def joinWithNewline : List (List Char) → List Char
  | [] => []
  | [line] => line
  | line :: rest => line ++ '\n' :: joinWithNewline rest

/-- JavaScript `String.prototype.split('\n')` (and `'\n'.split` semantics:
an empty string yields one empty piece, a trailing separator a trailing
empty piece). -/
def splitLinesStr (s : String) : List String := (splitOnNewline s.data).map String.mk

/-- JavaScript `Array.prototype.join(sep)`. -/
def strJoin (sep : String) : List String → String
  | [] => ""
  | [x] => x
  | x :: rest => x ++ sep ++ strJoin sep rest

/-- `.replace(/^(\s*)[*•]\s+/gm, '$1- ')`, applied to one line: leading
whitespace, a `*` or `•` marker and at least one whitespace character are
rewritten to the leading whitespace followed by `"- "`. -/
def bulletLineFix (l : List Char) : List Char :=
  let lead := l.takeWhile (fun c => c.isWhitespace)
  match l.dropWhile (fun c => c.isWhitespace) with
  | marker :: afterMarker =>
    match afterMarker with
    | c2 :: _ =>
      if (marker = '*' ∨ marker = '•') ∧ c2.isWhitespace then
        lead ++ '-' :: ' ' :: afterMarker.dropWhile (fun c => c.isWhitespace)
      else l
    | [] => l
  | [] => l

/-- `.replace(/\n{3,}/g, '\n\n')`: emit at most two newlines per run.  The
first argument counts the newlines already emitted in the current run. -/
def collapseNewlinesAux : Nat → List Char → List Char
  | _, [] => []
  | run, c :: rest =>
    if c = '\n' then
      if run ≥ 2 then collapseNewlinesAux (run + 1) rest
      else '\n' :: collapseNewlinesAux (run + 1) rest
    else c :: collapseNewlinesAux 0 rest

/-- `stripMarkdownFormatting(text)` from ragService.js: normalize CRLF,
drop `**…**`, `__…__` and backtick code-span markers, normalize bullet
markers to `- `, collapse three-plus newlines to two, and trim. -/
def stripMarkdownFormatting (text : String) : String :=
  let step1 := replaceCRLF text.data
  let step2 := removePaired '*' step1
  let step3 := removePaired '_' step2
  let step4 := removeCodeSpans backtickChar step3
  let step5 := joinWithNewline ((splitOnNewline step4).map bulletLineFix)
  let step6 := collapseNewlinesAux 0 step5
  strTrim (String.mk step6)

/-- ASCII letter test (`[A-Za-z]`). -/
def isAsciiLetter (c : Char) : Bool :=
  ('A' ≤ c ∧ c ≤ 'Z') ∨ ('a' ≤ c ∧ c ≤ 'z')

/-- The canned low-confidence answer `FALLBACK_ANSWER`. -/
def FALLBACK_ANSWER : String := "I don\x27t know - please provide more context."

/-- The default of `RAG_RESPONSE_STYLE` when the environment does not
override it. -/
def DEFAULT_RESPONSE_STYLE : String := "structured"

/-- `normalizeResponseStyle(value)`: fall back to the default on a falsy
value, lower-case, and coerce anything outside `{plain, structured}` to
`structured`. -/
def normalizeResponseStyle (value : Option String) : String :=
  let candidate :=
    strToLower
      (match value with
       | some v => if v = "" then DEFAULT_RESPONSE_STYLE else v
       | none => DEFAULT_RESPONSE_STYLE)
  if candidate = "plain" ∨ candidate = "structured" then candidate else "structured"

/-- `normalizeSectionTitle(value)`: trim, lower-case, strip every
character outside `[a-z\s-]`, then map canonical names and synonyms to the
four section titles; `null` otherwise. -/
def normalizeSectionTitle (value : String) : Option String :=
  let normalized :=
    String.mk ((strToLower (strTrim value)).data.filter
      (fun c => ('a' ≤ c ∧ c ≤ 'z') ∨ c.isWhitespace ∨ c = '-'))
  if normalized = "" then none
  else if normalized = "answer" then some "Answer"
  else if normalized = "key points" ∨ normalized = "key point" ∨ normalized = "highlights" then
    some "Key Points"
  else if normalized = "evidence" ∨ normalized = "sources" ∨ normalized = "citations" then
    some "Evidence"
  else if normalized = "follow-up" ∨ normalized = "follow up" ∨ normalized = "next steps" then
    some "Follow-up"
  else none

/-- The capture group `[A-Za-z][A-Za-z -]{1,30}` of the label patterns:
2–31 characters, starting with a letter, the rest letters, spaces or
hyphens. -/
def isLabelChars : List Char → Bool
  | [] => false
  | c :: rest =>
    isAsciiLetter c ∧ decide (2 ≤ rest.length + 1) ∧ decide (rest.length + 1 ≤ 31) ∧
      rest.all (fun ch => isAsciiLetter ch ∨ ch = ' ' ∨ ch = '-')

/-- The `^##\s+(.+?)\s*$` heading pattern of `parseStructuredSections`:
on a match, the started section's title is the canonical name when the
heading text maps to one, else the heading text itself (trimmed). -/
def matchHeading (line : List Char) : Option String :=
  match line with
  | '#' :: '#' :: rest =>
    match rest with
    | c :: _ =>
      if c.isWhitespace ∧ strTrim (String.mk rest) ≠ "" then
        let title := strTrim (String.mk rest)
        some ((normalizeSectionTitle title).getD title)
      else none
    | [] => none
  | _ => none

/-- The `^([A-Za-z][A-Za-z -]{1,30})\s*:\s*(.*)$` pattern: a label before
the first colon (trailing whitespace allowed) and the trimmed remainder as
first content line.  The source only starts a section when the label is
canonical, so non-canonical matches yield `none` here. -/
def matchLabelWithContent (line : List Char) : Option (String × String) :=
  match splitAtChar ':' line with
  | none => none
  | some (pre, rest) =>
    let lab := dropTrailingWs pre
    if isLabelChars lab then
      match normalizeSectionTitle (String.mk lab) with
      | some canonical => some (canonical, strTrim (String.mk rest))
      | none => none
    else none

/-- The `^([A-Za-z][A-Za-z -]{1,30})\s*:?\s*$` pattern: a whole line that
is a label, optionally followed by one colon and whitespace.  Again only
canonical labels start a section. -/
def matchLabelOnly (line : List Char) : Option String :=
  let t := dropTrailingWs line
  let u := if t.getLast? = some ':' then dropTrailingWs t.dropLast else t
  if isLabelChars u then normalizeSectionTitle (String.mk u) else none

/-- One parsed or normalized section `{title, content}`. -/
structure SectionEntry where
  title : String
  content : String
deriving DecidableEq

/-- The `current` section being accumulated by `parseStructuredSections`. -/
structure ParseCurrent where
  title : String
  lines : List String
deriving DecidableEq

/-- The loop state of `parseStructuredSections`. -/
structure ParseState where
  sections : List SectionEntry
  current : Option ParseCurrent
deriving DecidableEq

/-- `pushCurrentSection()`: flush `current` into `sections`; an empty
`Body` section is dropped. -/
def pushCurrentSection (st : ParseState) : ParseState :=
  match st.current with
  | none => st
  | some cur =>
    let content := strTrim (strJoin "\n" cur.lines)
    if content = "" ∧ cur.title = "Body" then { sections := st.sections, current := none }
    else
      { sections := st.sections ++ [{ title := cur.title, content := content }], current := none }

/-- `startSection(title, firstLine)`: flush the current section and start
a new one; an empty `firstLine` (falsy) is not recorded. -/
def startSection (st : ParseState) (title firstLine : String) : ParseState :=
  let st' := pushCurrentSection st
  { sections := st'.sections
    current := some { title := title, lines := if firstLine = "" then [] else [firstLine] } }

/-- The body of the `for (const line of normalized.split('\n'))` loop. -/
def parseLine (st : ParseState) (line : String) : ParseState :=
  match matchHeading line.data with
  | some title => startSection st title ""
  | none =>
    match matchLabelWithContent line.data with
    | some withContent => startSection st withContent.1 withContent.2
    | none =>
      match matchLabelOnly line.data with
      | some canonical => startSection st canonical ""
      | none =>
        match st.current with
        | none => { st with current := some { title := "Body", lines := [line] } }
        | some cur => { st with current := some { cur with lines := cur.lines ++ [line] } }

/-- The parse result `{format: 'structured_sections', sections}`. -/
structure ResponseSchema where
  format : String
  sections : List SectionEntry
deriving DecidableEq

/-- `parseStructuredSections(text)` from ragService.js. -/
def parseStructuredSections (text : String) : ResponseSchema :=
  let normalized := stripMarkdownFormatting text
  if normalized = "" then { format := "structured_sections", sections := [] }
  else
    let st := (splitLinesStr normalized).foldl parseLine { sections := [], current := none }
    { format := "structured_sections", sections := (pushCurrentSection st).sections }

/-- `getSectionContent(schema, title)`: trimmed content of the first
section whose title matches case-insensitively, else `''`. -/
def getSectionContent (schema : ResponseSchema) (title : String) : String :=
  match schema.sections.find? (fun entry => strToLower entry.title = strToLower title) with
  | some sec => strTrim sec.content
  | none => ""

/-- The `.replace(/^[-*•]\s*/, '')` of `ensureBulletList` on one
(already trimmed) line. -/
def stripBulletMarker (line : String) : String :=
  match line.data with
  | c :: rest =>
    if c = '-' ∨ c = '*' ∨ c = '•' then String.mk (rest.dropWhile (fun ch => ch.isWhitespace))
    else line
  | [] => line

/-- `ensureBulletList(content, fallbackLine)`: normalize the content into
`- `-prefixed lines; an empty list yields the single fallback bullet. -/
def ensureBulletList (content fallbackLine : String) : String :=
  let lines :=
    (((splitLinesStr content).map strTrim).filter (fun line => line ≠ "")).map
      (fun line => strTrim (stripBulletMarker line))
  if lines.isEmpty then "- " ++ fallbackLine
  else strJoin "\n" (lines.map (fun line => "- " ++ line))

/-- `buildStructuredFallbackAnswer()` from ragService.js. -/
def buildStructuredFallbackAnswer : String :=
  "Answer:\n" ++ FALLBACK_ANSWER ++
    "\n\nKey Points:\n- Not enough evidence was found in indexed documents.\n\nEvidence:\n- None.\n\nFollow-up:\n- Upload or index relevant PDFs and ask again."

/-- `formatStructuredAnswer(schema)` from ragService.js: the normalized
schema (always the four sections Answer, Key Points, Evidence, Follow-up,
in that order, each backed by a placeholder when missing) together with
`formattedAnswer`. -/
def formatStructuredAnswer (schema : ResponseSchema) : ResponseSchema × String :=
  let answer :=
    let a := getSectionContent schema "Answer"
    if a ≠ "" then a
    else
      let b := getSectionContent schema "Body"
      if b ≠ "" then b else FALLBACK_ANSWER
  let keyPoints :=
    ensureBulletList (getSectionContent schema "Key Points")
      "Not enough evidence was found in indexed documents."
  let evidence := ensureBulletList (getSectionContent schema "Evidence") "None."
  let followUp :=
    ensureBulletList (getSectionContent schema "Follow-up")
      "Upload or index relevant PDFs and ask again."
  let sections : List SectionEntry :=
    [{ title := "Answer", content := answer },
     { title := "Key Points", content := keyPoints },
     { title := "Evidence", content := evidence },
     { title := "Follow-up", content := followUp }]
  let formattedAnswer :=
    strTrim (strJoin "\n\n" (sections.map (fun s => s.title ++ ":\n" ++ s.content)))
  ({ format := "structured_sections", sections := sections }, formattedAnswer)

/-- The `.replace(/^\s*[-*]\s*/gm, '')` of `getAnswerFromStructuredSchema`
on one line. -/
def stripLineBullet (l : List Char) : List Char :=
  match l.dropWhile (fun c => c.isWhitespace) with
  | c :: after => if c = '-' ∨ c = '*' then after.dropWhile (fun ch => ch.isWhitespace) else l
  | [] => l

/-- Apply `stripLineBullet` per line and trim, as
`getAnswerFromStructuredSchema` does to the extracted text. -/
def stripAnswerBullets (s : String) : String :=
  strTrim (strJoin "\n"
    ((splitLinesStr s).map (fun line => String.mk (stripLineBullet line.data))))

/-- `getAnswerFromStructuredSchema(schema)` from ragService.js. -/
def getAnswerFromStructuredSchema (schema : ResponseSchema) : String :=
  let answer := getSectionContent schema "Answer"
  if answer ≠ "" then stripAnswerBullets answer
  else
    match schema.sections.find? (fun s => strTrim s.content ≠ "") with
    | none => ""
    | some sec => stripAnswerBullets sec.content

/-- The payload of `normalizeAnswerPayload` (`responseSchema` is `null`
for plain style). -/
structure AnswerPayload where
  answer : String
  formattedAnswer : String
  responseSchema : Option ResponseSchema
  responseStyle : String
deriving DecidableEq

/-- `normalizeAnswerPayload({rawText, responseStyle})` from ragService.js. -/
def normalizeAnswerPayload (rawText : String) (responseStyle : Option String) : AnswerPayload :=
  let style := normalizeResponseStyle responseStyle
  let trimmedRaw := stripMarkdownFormatting rawText
  if style = "plain" then
    let text := if trimmedRaw = "" then FALLBACK_ANSWER else trimmedRaw
    { answer := text, formattedAnswer := text, responseSchema := none, responseStyle := style }
  else
    let parsed :=
      parseStructuredSections
        (if trimmedRaw = "" then buildStructuredFallbackAnswer else trimmedRaw)
    let normalizedStructured := formatStructuredAnswer parsed
    let answer := getAnswerFromStructuredSchema normalizedStructured.1
    { answer := if answer = "" then FALLBACK_ANSWER else answer
      formattedAnswer := normalizedStructured.2
      responseSchema := some normalizedStructured.1
      responseStyle := style }

/-! ### Generation fallback and `runChatQuery` (ragService.js) -/

/-- The outcome of one `ai.models.generateContent` attempt:
a resolved text, an error recognized by `isGeminiNotFoundError`, or any
other error (including the 25-second timeout rejection). -/
inductive GenAttemptOutcome where
  | ok (text : String)
  | notFoundError
  | requestError
deriving DecidableEq

/-- `generateTextWithFallback` from ragService.js, over the candidate
models paired with their attempt outcomes: a not-found error advances to
the next candidate when one exists; the last candidate's not-found error,
or any other error, throws a generation error; an empty candidate list
falls through to the final throw. -/
def generateTextWithFallback : List (String × GenAttemptOutcome) → Except String String
  | [] => Except.error "Gemini generation failed for all configured models."
  | (model, outcome) :: rest =>
    match outcome with
    | GenAttemptOutcome.ok t => Except.ok t
    | GenAttemptOutcome.notFoundError =>
      if rest.isEmpty then
        Except.error ("Generation model \"" ++ model ++ "\" is unavailable.")
      else generateTextWithFallback rest
    | GenAttemptOutcome.requestError => Except.error "Gemini generation request failed."

/-- One entry of the `sources` array built by `runChatQuery`. -/
structure SourceRef where
  pdfId : Option Nat
  chunkId : Nat
  score : ℝ

/-- The resolved value of `runChatQuery`. -/
structure ChatResponse where
  payload : AnswerPayload
  sources : List SourceRef
  usedChunksCount : Nat

/-- The environment of one `runChatQuery` call: the outcome of
`retrieveCandidates` (which embeds the question and runs
`similaritySearch`; `Except.error` models a thrown embedding/store error)
and the generation model candidates with their attempt outcomes. -/
structure ChatQueryRun where
  retrieval : Except String (List Candidate)
  models : List (String × GenAttemptOutcome)

/-- `runChatQuery` from ragService.js.  The `Bool` component records
whether the generation backend was reached.  With zero candidates the
source short-circuits to the payload normalized from an empty answer.
With candidates, `generateTextWithFallback` is called inside
`try { ... } catch (error) { logError(...) }`: a generation error is
logged and swallowed, leaving `rawAnswer = ''`, and a normal payload is
returned. -/
def runChatQuery (run : ChatQueryRun) (responseStyle : Option String) :
    Except String (ChatResponse × Bool) :=
  let style := normalizeResponseStyle responseStyle
  match run.retrieval with
  | Except.error e => Except.error e
  | Except.ok candidates =>
    if candidates.length = 0 then
      Except.ok
        ({ payload := normalizeAnswerPayload "" (some style)
           sources := []
           usedChunksCount := 0 }, false)
    else
      let rawAnswer :=
        match generateTextWithFallback run.models with
        | Except.ok t => t
        | Except.error _ => ""
      Except.ok
        ({ payload := normalizeAnswerPayload rawAnswer (some style)
           sources := candidates.map (fun c =>
             { pdfId := c.pdfId, chunkId := c.chunkId, score := c.score })
           usedChunksCount := candidates.length }, true)

/-! ### Concrete fixtures

Inputs used to evaluate the model at the scenarios of the spec's testable
properties and of the repository's own tests. -/

/-- The empty `chunks` table with a fresh id supply. -/
def emptyChunkDb : ChunkDb := { rows := [], nextId := 0 }

/-- A filler item of the retrieval-accuracy test
(`tests/retrieval-accuracy.test.js`): `{text: 'filler chunk i',
embedding: [0, 1], chunkKey: 'chunk-i'}`. -/
def fillerItem (i : Nat) : ChunkItem :=
  { text := "filler chunk " ++ toString i, embedding := some [0, 1], chunkKey := "chunk-" ++ toString i }

/-- The needle item of the retrieval-accuracy test, placed at position 359
of 360: `{text: 'needle chunk', embedding: [1, 0], chunkKey: 'chunk-needle'}`. -/
def needleItem : ChunkItem :=
  { text := "needle chunk", embedding := some [1, 0], chunkKey := "chunk-needle" }

/-- The 360-item corpus of the retrieval-accuracy test: fillers at
positions 0–358 and the needle at position 359. -/
def retrievalTestItems : List ChunkItem := ((List.range 359).map fillerItem) ++ [needleItem]

/-- The database after the test's single `addChunks` call (session 1,
`pdfId: null`, `replacePdfChunks: false`); the needle is the row with id
359, and every row of the batch shares one `createdAt`. -/
def retrievalTestDb : ChunkDb :=
  (addChunks
    { sessionId := 1, pdfId := none, items := retrievalTestItems, replacePdfChunks := false }
    0 emptyChunkDb).1

/-- The test's query: `{sessionId, queryEmbedding: [1, 0], topK: 1,
pageSize: 100}`.  `pageSize` has no binding in `similaritySearch`'s
destructuring, so `limit`/`offset` take their defaults 300/0. -/
def retrievalSearchArgs : SearchArgs := { sessionId := 1, queryEmbedding := [1, 0], topK := 1 }

/-- A first indexing run's batch for document 7 (one segment). -/
def firstIndexItems : List ChunkItem :=
  [{ text := "v1 chunk", embedding := some [1, 0], chunkKey := "k1" }]

/-- A re-indexing run's batch for the same document 7 (one segment,
same position hash). -/
def reindexItems : List ChunkItem :=
  [{ text := "v2 chunk", embedding := some [1, 0], chunkKey := "k1" }]

/-- The database after the first indexing run of document 7
(`replacePdfChunks: true`, as indexingService passes). -/
def dbAfterFirstIndex : ChunkDb :=
  (addChunks
    { sessionId := 1, pdfId := some 7, items := firstIndexItems, replacePdfChunks := true }
    0 emptyChunkDb).1

/-- The database after re-indexing document 7 (`replacePdfChunks: true`
again). -/
def dbAfterReindex : ChunkDb :=
  (addChunks
    { sessionId := 1, pdfId := some 7, items := reindexItems, replacePdfChunks := true }
    1 dbAfterFirstIndex).1

/-- A one-segment session corpus whose only stored vector is `[1, 0]`
(so the query `[-1, 0]` scores strictly negative against every segment). -/
def negCorpusDb : ChunkDb :=
  (addChunks
    { sessionId := 1, pdfId := some 1
      items := [{ text := "only segment", embedding := some [1, 0], chunkKey := "k0" }]
      replacePdfChunks := false }
    0 emptyChunkDb).1

/-- The single row of `negCorpusDb`. -/
def negCorpusRow : ChunkRow :=
  { id := 0, sessionId := 1, pdfId := some 1, text := "only segment"
    embedding := some [1, 0], embeddingVectorLength := 2, createdAt := 0 }

/-- An `indexPdfById` run whose chunker yields zero chunks (e.g. the
parsers returned whitespace-only text that the chunker drops). -/
def zeroChunkRun : IndexRun :=
  { pdfExists := true
    parseOutcome := Except.ok "   "
    chunksOf := fun _ => []
    embedOutcome := fun _ => Except.ok []
    storeOutcome := fun _ => Except.ok 0 }

/-- An `indexPdfById` run in which every step succeeds. -/
def happyIndexRun : IndexRun :=
  { pdfExists := true
    parseOutcome := Except.ok "hello world"
    chunksOf := fun t => [t]
    embedOutcome := fun _ => Except.ok [[1, 0]]
    storeOutcome := fun _ => Except.ok 1 }

/-- A `runChatQuery` call that retrieved one candidate and whose single
generation model rejects with a non-"not found" error. -/
noncomputable def genFailChatRun : ChatQueryRun :=
  { retrieval := Except.ok [{ chunkId := 1, pdfId := some 7, text := "ctx", score := 1 }]
    models := [("gemini-2.0-flash", GenAttemptOutcome.requestError)] }

/-- A `runChatQuery` call whose retrieval produced zero candidates. -/
def emptyChatRun : ChatQueryRun :=
  { retrieval := Except.ok [], models := [("gemini-2.0-flash", GenAttemptOutcome.ok "hi")] }

/-! ## Theorems -/

/-! ### LRU cache lemmas -/

theorem mapLookup_eq_some_mem {K V : Type} [DecidableEq K] {k : K} {v : V}
    {c : CacheMap K V} (h : mapLookup k c = some v) : (k, v) ∈ c := by
  induction c with
  | nil => simp [mapLookup] at h
  | cons e rest ih =>
    by_cases hk : e.1 = k
    · simp only [mapLookup, hk, if_pos] at h
      obtain ⟨e1, e2⟩ := e
      have hk' : e1 = k := hk
      have hv : e2 = v := by injection h
      subst hk' hv
      exact List.mem_cons_self _ _
    · simp only [mapLookup, hk, if_neg, not_false_iff] at h
      exact List.mem_cons_of_mem _ (ih h)

theorem trimCache_length_le {K V : Type} (c : CacheMap K V) :
    (trimCache c).length ≤ EMBEDDING_CACHE_LIMIT := by
  unfold trimCache
  split
  · exact trimCache_length_le c.tail
  · omega
termination_by c.length
decreasing_by
  simp only [List.length_tail]
  omega

theorem trimCache_eq_drop {K V : Type} (c : CacheMap K V) :
    trimCache c = c.drop (c.length - EMBEDDING_CACHE_LIMIT) := by
  unfold trimCache
  split
  · next h =>
    rw [trimCache_eq_drop c.tail]
    rw [List.length_tail, ← List.drop_one, List.drop_drop]
    have harith : 1 + (c.length - 1 - EMBEDDING_CACHE_LIMIT) = c.length - EMBEDDING_CACHE_LIMIT := by
      omega
    rw [harith]
  · next h =>
    have : c.length - EMBEDDING_CACHE_LIMIT = 0 := by omega
    simp [this]
termination_by c.length
decreasing_by
  simp only [List.length_tail]
  omega

theorem trimCache_subset {K V : Type} (c : CacheMap K V) : trimCache c ⊆ c := by
  rw [trimCache_eq_drop]
  exact List.drop_subset _ _

theorem setCache_length_le {K V : Type} [DecidableEq K] (id : K) (v : V) (c : CacheMap K V) :
    (setCache id v c).length ≤ EMBEDDING_CACHE_LIMIT :=
  trimCache_length_le _

theorem getCachedVector_length {K V : Type} [DecidableEq K] (id : K) (c : CacheMap K V) :
    (getCachedVector id c).2.length = c.length := by
  unfold getCachedVector
  cases h : mapLookup id c with
  | none => rfl
  | some v =>
    have hmem : (id, v) ∈ c := mapLookup_eq_some_mem h
    have hlen : (mapDelete id c).length = c.length - 1 := by
      unfold mapDelete
      exact List.length_eraseP_of_mem hmem (by simp)
    have hpos : 1 ≤ c.length := List.length_pos.mpr (List.ne_nil_of_mem hmem)
    simp only [List.length_append, List.length_cons, List.length_nil, hlen]
    omega

theorem runCacheOps_length_le {K V : Type} [DecidableEq K] (ops : List (CacheOp K V))
    (c : CacheMap K V) (h : c.length ≤ EMBEDDING_CACHE_LIMIT) :
    (runCacheOps ops c).length ≤ EMBEDDING_CACHE_LIMIT := by
  induction ops generalizing c with
  | nil => exact h
  | cons op rest ih =>
    cases op with
    | set id v => exact ih _ (setCache_length_le id v c)
    | get id => exact ih _ (by rw [getCachedVector_length]; exact h)

/-- C7.  The embedding cache preserves the LRU invariant: (1) from the
empty cache, no sequence of `setCache`/`getCachedVector` operations ever
grows it beyond `EMBEDDING_CACHE_LIMIT = 400` entries; (2) a hit on
`getCachedVector` moves exactly that entry to the most-recently-used
(last) position, keeping the other entries in order; (3) when an insert of
a fresh key finds the cache full, the evicted entry is the
least-recently-used (front) one: the new state is the old state minus its
head, with the fresh entry appended. -/
theorem lru_cache_invariants {K V : Type} [DecidableEq K] :
    (∀ (ops : List (CacheOp K V)),
      (runCacheOps ops ([] : CacheMap K V)).length ≤ EMBEDDING_CACHE_LIMIT)
    ∧ (∀ (c : CacheMap K V) (id : K) (v : V), mapLookup id c = some v →
        (getCachedVector id c).2 = mapDelete id c ++ [(id, v)])
    ∧ (∀ (c : CacheMap K V) (id : K) (v : V),
        c.length = EMBEDDING_CACHE_LIMIT → mapLookup id c = none →
        setCache id v c = c.tail ++ [(id, v)]) := by
  refine ⟨fun ops => runCacheOps_length_le ops [] (by simp [EMBEDDING_CACHE_LIMIT]), ?_, ?_⟩
  · intro c id v h
    unfold getCachedVector
    rw [h]
  · intro c id v hlen hmiss
    unfold setCache
    rw [hmiss]
    simp only [Option.isSome_none, Bool.false_eq_true, if_false]
    rw [trimCache_eq_drop]
    have hlen' : (c ++ [(id, v)]).length = EMBEDDING_CACHE_LIMIT + 1 := by
      simp [hlen]
    rw [hlen']
    simp only [Nat.add_sub_cancel_left]
    rw [List.drop_append_of_le_length (by rw [hlen]; norm_num [EMBEDDING_CACHE_LIMIT]),
      List.drop_one]

set_option maxRecDepth 4000 in
/-- Witness for C7: conjunct 1 at a two-operation trace; conjunct 2 at a
two-entry cache holding key 0; conjunct 3 at a full 400-entry cache and
the fresh key 400. -/
theorem lru_cache_invariants_witness :
    (runCacheOps [CacheOp.set 1 (10 : Nat), CacheOp.get 0] ([] : CacheMap Nat Nat)).length
        ≤ EMBEDDING_CACHE_LIMIT
    ∧ (getCachedVector 0 [(0, 10), (1, 20)]).2 = mapDelete 0 [(0, 10), (1, 20)] ++ [(0, 10)]
    ∧ setCache 400 0 ((List.range 400).map (fun i => (i, 0)))
        = ((List.range 400).map (fun i => (i, 0))).tail ++ [(400, 0)] := by
  refine ⟨(@lru_cache_invariants Nat Nat _).1 _, ?_, ?_⟩
  · exact (@lru_cache_invariants Nat Nat _).2.1 _ 0 10 (by decide)
  · exact (@lru_cache_invariants Nat Nat _).2.2 _ 400 0 (by simp [EMBEDDING_CACHE_LIMIT]) (by decide)

/-! ### Job queue lemmas -/

theorem mapLookup_updateJob (jobs : List (Nat × Job)) (id : Nat) (f : Job → Job) :
    mapLookup id (updateJob jobs id f) = (mapLookup id jobs).map f := by
  induction jobs with
  | nil => rfl
  | cons e rest ih =>
    by_cases he : e.1 = id
    · simp [updateJob, mapLookup, he] at ih ⊢
    · simp only [updateJob, List.map_cons, if_neg he]
      simp only [mapLookup, if_neg he]
      exact ih

/-- C5.  One `processQueue` iteration on the job at the head of the queue:
on handler success the job is `completed` with its result; on handler
failure with `attempts ≤ maxRetries` (attempts counted after the
increment) the job returns to `queued`, re-enters the tail of the queue,
and the awaited backoff is `250 * 2^(attempts-1)` ms; otherwise the job
becomes `failed`, retains the error message, and its record remains in the
job map (only its fields change). -/
theorem job_retry_backoff_failure (s : QueueState) (jobId : Nat) (restQueue : List Nat)
    (job : Job) (r e : String)
    (hq : s.queue = jobId :: restQueue) (hj : mapLookup jobId s.jobs = some job) :
    (mapLookup jobId (processOneStep s (HandlerOutcome.success r)).1.jobs
        = some { job with
                  status := JobStatus.completed
                  attempts := job.attempts + 1
                  result := some r }
      ∧ (processOneStep s (HandlerOutcome.success r)).1.queue = restQueue)
    ∧ (job.attempts + 1 ≤ job.maxRetries →
        mapLookup jobId (processOneStep s (HandlerOutcome.failure e)).1.jobs
            = some { job with
                      status := JobStatus.queued
                      attempts := job.attempts + 1
                      error := some e }
          ∧ (processOneStep s (HandlerOutcome.failure e)).1.queue = restQueue ++ [jobId]
          ∧ (processOneStep s (HandlerOutcome.failure e)).2
              = some (BACKOFF_BASE_MS * 2 ^ (job.attempts + 1 - 1)))
    ∧ (¬ job.attempts + 1 ≤ job.maxRetries →
        mapLookup jobId (processOneStep s (HandlerOutcome.failure e)).1.jobs
            = some { job with
                      status := JobStatus.failed
                      attempts := job.attempts + 1
                      error := some e }
          ∧ (processOneStep s (HandlerOutcome.failure e)).1.queue = restQueue
          ∧ (processOneStep s (HandlerOutcome.failure e)).2 = none) := by
  refine ⟨⟨?_, ?_⟩, fun hle => ⟨?_, ?_, ?_⟩, fun hgt => ⟨?_, ?_, ?_⟩⟩ <;>
    simp [processOneStep, hq, hj, mapLookup_updateJob, *]

/-- Witness for C5: a queue holding job 1 with `attempts = 0`,
`maxRetries = 2` (the retry branch applies after the first failure), and a
queue holding job 1 with `attempts = 2`, `maxRetries = 2` (the third
failure exhausts the budget). -/
theorem job_retry_backoff_failure_witness :
    (mapLookup 1 (processOneStep
        { queue := [1]
          jobs := [(1, { id := 1, type := "indexPdf", status := JobStatus.queued, attempts := 0, maxRetries := 2, result := none, error := none })]
          sequence := 2 } (HandlerOutcome.failure "boom")).1.jobs
      = some { id := 1, type := "indexPdf", status := JobStatus.queued, attempts := 1, maxRetries := 2, result := none, error := some "boom" })
    ∧ (mapLookup 1 (processOneStep
        { queue := [1]
          jobs := [(1, { id := 1, type := "indexPdf", status := JobStatus.queued, attempts := 2, maxRetries := 2, result := none, error := none })]
          sequence := 2 } (HandlerOutcome.failure "boom")).1.jobs
      = some { id := 1, type := "indexPdf", status := JobStatus.failed, attempts := 3, maxRetries := 2, result := none, error := some "boom" }) := by
  constructor
  · exact ((job_retry_backoff_failure
      { queue := [1]
        jobs := [(1, { id := 1, type := "indexPdf", status := JobStatus.queued, attempts := 0, maxRetries := 2, result := none, error := none })]
        sequence := 2 } 1 []
      { id := 1, type := "indexPdf", status := JobStatus.queued, attempts := 0, maxRetries := 2, result := none, error := none }
      "r" "boom" rfl (by decide)).2.1 (by decide)).1
  · exact ((job_retry_backoff_failure
      { queue := [1]
        jobs := [(1, { id := 1, type := "indexPdf", status := JobStatus.queued, attempts := 2, maxRetries := 2, result := none, error := none })]
        sequence := 2 } 1 []
      { id := 1, type := "indexPdf", status := JobStatus.queued, attempts := 2, maxRetries := 2, result := none, error := none }
      "r" "boom" rfl (by decide)).2.2 (by decide)).1

/-- C6 counterexample.  The claim says a job that was queued before a
process restart is reloaded from durable storage afterwards.  After
enqueuing job 1 (so it is queued, with a record in the job map), the
restarted engine's state is the module-initialization state: the job map
has no entry for job 1 and the pending queue is empty — the job is lost,
not requeued. -/
theorem restart_loses_queued_job :
    ((addJob "indexPdf" (some 2) initialQueueState).1.queue = [1]
      ∧ (mapLookup 1 (addJob "indexPdf" (some 2) initialQueueState).1.jobs).isSome = true)
    ∧ mapLookup 1 (restartQueueState (addJob "indexPdf" (some 2) initialQueueState).1).jobs
        = none
    ∧ (restartQueueState (addJob "indexPdf" (some 2) initialQueueState).1).queue = [] := by
  exact ⟨⟨rfl, rfl⟩, rfl, rfl⟩

/-- C6 amended.  Jobs are held only in process memory (the module-level
`queue` array and `jobs` map of jobQueue.js, with no durable backing
store): after a process restart the engine state equals the
module-initialization state, holding no job record and an empty pending
queue, regardless of what was queued or processing before. -/
theorem restart_reinitializes_queue (s : QueueState) (id : Nat) :
    restartQueueState s = initialQueueState
      ∧ mapLookup id (restartQueueState s).jobs = (none : Option Job)
      ∧ (restartQueueState s).queue = [] :=
  ⟨rfl, rfl, rfl⟩

/-! ### Indexing orchestration (C3) -/

/-- C3 counterexample.  The claim says every step failure — including
"zero chunks produced" — both marks the document failed and propagates an
error to the Job Engine.  On a run whose chunker produces zero chunks the
code marks the document failed but *resolves normally* with
`{indexedChunks: 0, failed: true}`: no error reaches the Job Engine, which
therefore records the job as completed. -/
theorem zero_chunks_does_not_propagate :
    (indexPdfById zeroChunkRun).1 = some DocStatus.failed
      ∧ (indexPdfById zeroChunkRun).2
          = Except.ok { indexedChunks := 0, failed := true, skipped := false }
      ∧ ¬ ∃ e, (indexPdfById zeroChunkRun).2 = Except.error e := by
  refine ⟨rfl, rfl, ?_⟩
  rintro ⟨e, he⟩
  rw [show (indexPdfById zeroChunkRun).2
      = Except.ok { indexedChunks := 0, failed := true, skipped := false } from rfl] at he
  exact Except.noConfusion he

/-- C3 amended.  For a document that exists: a parse failure (which
includes empty extracted text, since every parser raises a typed
empty-text error), an embedding failure, and a store failure each mark the
document `failed` and propagate the error out of `indexPdfById`; a
zero-chunk result marks the document `failed` but resolves normally with a
failed result object, propagating no error; a fully successful run marks
the document indexed.  The orchestrator itself never retries (it is a
single pass). -/
theorem index_step_failures (run : IndexRun) (e t : String) :
    (run.pdfExists → run.parseOutcome = Except.error e →
      indexPdfById run = (some DocStatus.failed, Except.error e))
    ∧ (run.pdfExists → run.parseOutcome = Except.ok t → run.chunksOf t = [] →
        indexPdfById run
          = (some DocStatus.failed,
             Except.ok { indexedChunks := 0, failed := true, skipped := false }))
    ∧ (run.pdfExists → run.parseOutcome = Except.ok t → run.chunksOf t ≠ [] →
        run.embedOutcome (run.chunksOf t) = Except.error e →
        indexPdfById run = (some DocStatus.failed, Except.error e))
    ∧ (∀ vs, run.pdfExists → run.parseOutcome = Except.ok t → run.chunksOf t ≠ [] →
        run.embedOutcome (run.chunksOf t) = Except.ok vs →
        run.storeOutcome (run.chunksOf t) = Except.error e →
        indexPdfById run = (some DocStatus.failed, Except.error e))
    ∧ (∀ vs n, run.pdfExists → run.parseOutcome = Except.ok t → run.chunksOf t ≠ [] →
        run.embedOutcome (run.chunksOf t) = Except.ok vs →
        run.storeOutcome (run.chunksOf t) = Except.ok n →
        indexPdfById run
          = (some (DocStatus.indexed n),
             Except.ok { indexedChunks := n, failed := false, skipped := false })) := by
  refine ⟨?_, ?_, ?_, ?_, ?_⟩
  · intro hp hparse
    simp [indexPdfById, hp, hparse]
  · intro hp hparse hchunks
    simp [indexPdfById, hp, hparse, hchunks]
  · intro hp hparse hchunks hembed
    simp [indexPdfById, hp, hparse, List.length_eq_zero, hchunks, hembed]
  · intro vs hp hparse hchunks hembed hstore
    simp [indexPdfById, hp, hparse, List.length_eq_zero, hchunks, hembed, hstore]
  · intro vs n hp hparse hchunks hembed hstore
    simp [indexPdfById, hp, hparse, List.length_eq_zero, hchunks, hembed, hstore]

/-- Witness for C3 (amended): the parse-error conjunct at a run whose
parser rejects with an empty-text error; the zero-chunk conjunct at
`zeroChunkRun`; the success conjunct at `happyIndexRun`. -/
theorem index_step_failures_witness :
    indexPdfById
        { pdfExists := true
          parseOutcome := Except.error "TXT_TEXT_EMPTY"
          chunksOf := fun _ => []
          embedOutcome := fun _ => Except.ok []
          storeOutcome := fun _ => Except.ok 0 }
      = (some DocStatus.failed, Except.error "TXT_TEXT_EMPTY")
    ∧ indexPdfById zeroChunkRun
        = (some DocStatus.failed,
           Except.ok { indexedChunks := 0, failed := true, skipped := false })
    ∧ indexPdfById happyIndexRun
        = (some (DocStatus.indexed 1),
           Except.ok { indexedChunks := 1, failed := false, skipped := false }) := by
  refine ⟨?_, ?_, ?_⟩
  · exact (index_step_failures
      { pdfExists := true
        parseOutcome := Except.error "TXT_TEXT_EMPTY"
        chunksOf := fun _ => []
        embedOutcome := fun _ => Except.ok []
        storeOutcome := fun _ => Except.ok 0 } "TXT_TEXT_EMPTY" "t").1 rfl rfl
  · exact (index_step_failures zeroChunkRun "e" "   ").2.1 rfl rfl rfl
  · exact (index_step_failures happyIndexRun "e" "hello world").2.2.2.2 [[1, 0]] 1
      rfl rfl (by simp [happyIndexRun]) rfl rfl

/-! ### `runChatQuery` error behavior (C4) -/

/-- C4 counterexample.  The claim says that when candidates exist and the
generation backend fails, the failure surfaces to the caller as an
exception.  On a run with one retrieved candidate whose only model
attempt rejects with a non-"not found" error, `generateTextWithFallback`
does throw — but `runChatQuery`'s `try/catch` swallows it and the call
resolves with a normal answer payload (the payload normalized from an
empty raw answer). -/
theorem generation_failure_is_swallowed :
    generateTextWithFallback genFailChatRun.models
        = Except.error "Gemini generation request failed."
    ∧ (∃ resp, runChatQuery genFailChatRun (some "plain") = Except.ok resp)
    ∧ ¬ ∃ e, runChatQuery genFailChatRun (some "plain") = Except.error e := by
  refine ⟨rfl,
    ⟨({ payload := normalizeAnswerPayload "" (some "plain")
        sources := [{ pdfId := some 7, chunkId := 1, score := 1 }]
        usedChunksCount := 1 }, true), rfl⟩, ?_⟩
  rintro ⟨e, he⟩
  rw [show runChatQuery genFailChatRun (some "plain")
      = Except.ok ({ payload := normalizeAnswerPayload "" (some "plain")
                     sources := [{ pdfId := some 7, chunkId := 1, score := 1 }]
                     usedChunksCount := 1 }, true) from rfl] at he
  exact Except.noConfusion he

set_option maxRecDepth 20000 in
/-- C4 amended.  `runChatQuery` raises an exception only for
retrieval/embedding failures: a session whose retrieval yields zero
candidates resolves to the payload normalized from an empty raw answer
(the canned low-confidence answer) without reaching the generation
backend; when candidates exist and the generation backend fails, the
error is caught and logged and the call resolves to the same canned
payload (with the candidates attached as sources) instead of throwing.
The canned payload's `answer` field is the fallback text in both styles. -/
theorem chat_query_error_behavior (run : ChatQueryRun) (style : Option String)
    (e : String) (cands : List Candidate) :
    (run.retrieval = Except.error e → runChatQuery run style = Except.error e)
    ∧ (run.retrieval = Except.ok [] →
        runChatQuery run style
          = Except.ok
              ({ payload := normalizeAnswerPayload "" (some (normalizeResponseStyle style))
                 sources := []
                 usedChunksCount := 0 }, false))
    ∧ (run.retrieval = Except.ok cands → cands ≠ [] →
        ∀ e', generateTextWithFallback run.models = Except.error e' →
        runChatQuery run style
          = Except.ok
              ({ payload := normalizeAnswerPayload "" (some (normalizeResponseStyle style))
                 sources := cands.map (fun c =>
                   { pdfId := c.pdfId, chunkId := c.chunkId, score := c.score })
                 usedChunksCount := cands.length }, true))
    ∧ (run.retrieval = Except.ok cands → cands ≠ [] →
        ∀ t, generateTextWithFallback run.models = Except.ok t →
        runChatQuery run style
          = Except.ok
              ({ payload := normalizeAnswerPayload t (some (normalizeResponseStyle style))
                 sources := cands.map (fun c =>
                   { pdfId := c.pdfId, chunkId := c.chunkId, score := c.score })
                 usedChunksCount := cands.length }, true))
    ∧ (normalizeAnswerPayload "" (some "plain")).answer = FALLBACK_ANSWER
    ∧ (normalizeAnswerPayload "" (some "structured")).answer = FALLBACK_ANSWER := by
  refine ⟨?_, ?_, ?_, ?_, rfl, by decide⟩
  · intro hr
    simp [runChatQuery, hr]
  · intro hr
    simp [runChatQuery, hr]
  · intro hr hne e' hgen
    simp [runChatQuery, hr, hgen, List.length_eq_zero, hne]
  · intro hr hne t hgen
    simp [runChatQuery, hr, hgen, List.length_eq_zero, hne]

/-- Witness for C4 (amended): the zero-candidate conjunct at
`emptyChatRun`, the swallowed-generation-failure conjunct at
`genFailChatRun`, and the retrieval-error conjunct at a run whose
embedding call failed. -/
theorem chat_query_error_behavior_witness :
    runChatQuery emptyChatRun (some "plain")
      = Except.ok
          ({ payload := normalizeAnswerPayload "" (some (normalizeResponseStyle (some "plain")))
             sources := []
             usedChunksCount := 0 }, false)
    ∧ runChatQuery genFailChatRun (some "plain")
      = Except.ok
          ({ payload := normalizeAnswerPayload "" (some (normalizeResponseStyle (some "plain")))
             sources := [{ pdfId := some 7, chunkId := 1, score := 1 }]
             usedChunksCount := 1 }, true)
    ∧ runChatQuery { retrieval := Except.error "embedding backend down", models := [] }
        (some "plain") = Except.error "embedding backend down" := by
  refine ⟨?_, ?_, ?_⟩
  · exact (chat_query_error_behavior emptyChatRun (some "plain") "e" []).2.1 rfl
  · exact ((chat_query_error_behavior genFailChatRun (some "plain") "e"
      [{ chunkId := 1, pdfId := some 7, text := "ctx", score := 1 }]).2.2.1 rfl
      (by simp) "Gemini generation request failed." rfl)
  · exact (chat_query_error_behavior
      { retrieval := Except.error "embedding backend down", models := [] }
      (some "plain") "embedding backend down" []).1 rfl

/-! ### Structured answer normalization (C9) -/

theorem formatStructuredAnswer_sections (schema : ResponseSchema) :
    (formatStructuredAnswer schema).1.sections
      = [{ title := "Answer"
           content :=
             if getSectionContent schema "Answer" ≠ "" then getSectionContent schema "Answer"
             else if getSectionContent schema "Body" ≠ "" then getSectionContent schema "Body"
             else FALLBACK_ANSWER },
         { title := "Key Points"
           content := ensureBulletList (getSectionContent schema "Key Points")
             "Not enough evidence was found in indexed documents." },
         { title := "Evidence"
           content := ensureBulletList (getSectionContent schema "Evidence") "None." },
         { title := "Follow-up"
           content := ensureBulletList (getSectionContent schema "Follow-up")
             "Upload or index relevant PDFs and ask again." }] := rfl

theorem ensureBulletList_empty (fallbackLine : String) :
    ensureBulletList "" fallbackLine = "- " ++ fallbackLine := rfl

/-- C9.  For every raw model output, structured normalization
(`normalizeAnswerPayload` with style `structured`) publishes the schema
built by `formatStructuredAnswer` over the parsed sections, and for every
parsed schema that normalized result has exactly the four sections Answer,
Key Points, Evidence, Follow-up in that fixed order, with each missing
section back-filled by its deterministic placeholder (Key Points defaults
to the single insufficient-evidence bullet, Evidence to `- None.`,
Follow-up to the re-upload hint, and a missing Answer/Body to the
fallback answer text). -/
theorem structured_normalization_four_sections (rawText : String) :
    (normalizeAnswerPayload rawText (some "structured")).responseSchema
        = some (formatStructuredAnswer (parseStructuredSections
            (if stripMarkdownFormatting rawText = "" then buildStructuredFallbackAnswer
             else stripMarkdownFormatting rawText))).1
    ∧ ∀ schema : ResponseSchema,
        ((formatStructuredAnswer schema).1.sections.map SectionEntry.title
            = ["Answer", "Key Points", "Evidence", "Follow-up"])
        ∧ (getSectionContent schema "Key Points" = "" →
            ((formatStructuredAnswer schema).1.sections.map SectionEntry.content).get? 1
              = some "- Not enough evidence was found in indexed documents.")
        ∧ (getSectionContent schema "Evidence" = "" →
            ((formatStructuredAnswer schema).1.sections.map SectionEntry.content).get? 2
              = some "- None.")
        ∧ (getSectionContent schema "Follow-up" = "" →
            ((formatStructuredAnswer schema).1.sections.map SectionEntry.content).get? 3
              = some "- Upload or index relevant PDFs and ask again.")
        ∧ (getSectionContent schema "Answer" = "" → getSectionContent schema "Body" = "" →
            ((formatStructuredAnswer schema).1.sections.map SectionEntry.content).get? 0
              = some FALLBACK_ANSWER) := by
  refine ⟨rfl, fun schema => ⟨?_, ?_, ?_, ?_, ?_⟩⟩
  · rw [formatStructuredAnswer_sections]
    rfl
  · intro h
    rw [formatStructuredAnswer_sections]
    simp only [List.map_cons, List.get?, h, ensureBulletList_empty]
    rfl
  · intro h
    rw [formatStructuredAnswer_sections]
    simp only [List.map_cons, List.get?, h, ensureBulletList_empty]
    rfl
  · intro h
    rw [formatStructuredAnswer_sections]
    simp only [List.map_cons, List.get?, h, ensureBulletList_empty]
    rfl
  · intro ha hb
    rw [formatStructuredAnswer_sections]
    simp only [List.map_cons, List.get?, ha, hb]
    rfl

set_option maxRecDepth 20000 in
/-- Witness for C9: the raw output `"Answer: yes"` omits Key Points,
Evidence and Follow-up (each back-filled), and the raw output
`"## Evidence\n- doc1"` omits Answer and Body (back-filled with the
fallback answer). -/
theorem structured_normalization_four_sections_witness :
    ((formatStructuredAnswer (parseStructuredSections "Answer: yes")).1.sections.map
        SectionEntry.title = ["Answer", "Key Points", "Evidence", "Follow-up"])
    ∧ ((formatStructuredAnswer (parseStructuredSections "Answer: yes")).1.sections.map
        SectionEntry.content).get? 1
          = some "- Not enough evidence was found in indexed documents."
    ∧ ((formatStructuredAnswer (parseStructuredSections "Answer: yes")).1.sections.map
        SectionEntry.content).get? 2 = some "- None."
    ∧ ((formatStructuredAnswer (parseStructuredSections "Answer: yes")).1.sections.map
        SectionEntry.content).get? 3 = some "- Upload or index relevant PDFs and ask again."
    ∧ ((formatStructuredAnswer (parseStructuredSections "## Evidence\n- doc1")).1.sections.map
        SectionEntry.content).get? 0 = some FALLBACK_ANSWER := by
  refine ⟨((structured_normalization_four_sections "Answer: yes").2 _).1,
    ((structured_normalization_four_sections "Answer: yes").2 _).2.1 (by decide),
    ((structured_normalization_four_sections "Answer: yes").2 _).2.2.1 (by decide),
    ((structured_normalization_four_sections "Answer: yes").2 _).2.2.2.1 (by decide),
    ((structured_normalization_four_sections "x").2 _).2.2.2.2 (by decide) (by decide)⟩

/-! ### Vector store lemmas -/

theorem getCachedVector_fst_some {K V : Type} [DecidableEq K] (id : K) (c : CacheMap K V)
    (v : V) (h : (getCachedVector id c).1 = some v) : mapLookup id c = some v := by
  unfold getCachedVector at h
  cases hm : mapLookup id c with
  | none => rw [hm] at h; simp at h
  | some w => rw [hm] at h; simp at h; rw [h]

theorem getCachedVector_snd_subset {K V : Type} [DecidableEq K] (id : K) (c : CacheMap K V) :
    ∀ e ∈ (getCachedVector id c).2, e ∈ c := by
  intro e he
  unfold getCachedVector at he
  cases hm : mapLookup id c with
  | none => rw [hm] at he; exact he
  | some w =>
    rw [hm] at he
    simp only [List.mem_append, List.mem_singleton] at he
    rcases he with he | he
    · exact List.eraseP_subset _ he
    · rw [he]; exact mapLookup_eq_some_mem hm

theorem setCache_subset {K V : Type} [DecidableEq K] (id : K) (v : V) (c : CacheMap K V) :
    ∀ e ∈ setCache id v c, e ∈ c ∨ e = (id, v) := by
  intro e he
  unfold setCache at he
  have he' := trimCache_subset _ he
  simp only [List.mem_append, List.mem_singleton] at he'
  rcases he' with he' | he'
  · left
    by_cases hs : (mapLookup id c).isSome
    · rw [if_pos hs] at he'
      exact List.eraseP_subset _ he'
    · rw [if_neg hs] at he'
      exact he'
  · right; exact he'

theorem parseVectorForChunk_fst (row : ChunkRow) (cache : CacheMap Nat Vec) (v : Vec)
    (h : (parseVectorForChunk row cache).1 = some v) :
    (row.id, v) ∈ cache ∨ row.embedding = some v := by
  unfold parseVectorForChunk at h
  rcases hg : getCachedVector row.id cache with ⟨o, c'⟩
  cases o with
  | some cached =>
    rw [hg] at h
    simp only at h
    left
    have hfst : (getCachedVector row.id cache).1 = some cached := by rw [hg]
    have hm := getCachedVector_fst_some _ _ _ hfst
    have hcv : cached = v := by injection h
    subst hcv
    exact mapLookup_eq_some_mem hm
  | none =>
    rw [hg] at h
    cases hemb : row.embedding with
    | some parsed => rw [hemb] at h; simp only at h; right; exact h
    | none => rw [hemb] at h; simp at h

theorem parseVectorForChunk_snd (row : ChunkRow) (cache : CacheMap Nat Vec) :
    ∀ e ∈ (parseVectorForChunk row cache).2,
      e ∈ cache ∨ ∃ v, row.embedding = some v ∧ e = (row.id, v) := by
  intro e he
  unfold parseVectorForChunk at he
  rcases hg : getCachedVector row.id cache with ⟨o, c'⟩
  cases o with
  | some cached =>
    rw [hg] at he
    simp only at he
    left
    have : e ∈ (getCachedVector row.id cache).2 := by rw [hg]; exact he
    exact getCachedVector_snd_subset _ _ _ this
  | none =>
    rw [hg] at he
    cases hemb : row.embedding with
    | some parsed =>
      rw [hemb] at he
      simp only at he
      rcases setCache_subset _ _ _ _ he with h | h
      · left; exact h
      · right; exact ⟨parsed, rfl, h⟩
    | none =>
      rw [hemb] at he
      exact Or.inl he

theorem mem_scoreRows (q : Vec) (rows : List ChunkRow) (cache : CacheMap Nat Vec)
    (c : Candidate) (h : some c ∈ (scoreRows q rows cache).1) :
    ∃ row ∈ rows, c.chunkId = row.id ∧ c.text = row.text := by
  induction rows generalizing cache with
  | nil => simp [scoreRows] at h
  | cons row rest ih =>
    rw [scoreRows] at h
    simp only [List.mem_cons] at h
    rcases h with h | h
    · rcases hp : (parseVectorForChunk row cache).1 with _ | v
      · rw [hp] at h; simp at h
      · rw [hp] at h
        simp only [Option.some.injEq] at h
        subst h
        exact ⟨row, List.mem_cons_self _ _, rfl, rfl⟩
    · rcases ih _ h with ⟨row', hrow', hc⟩
      exact ⟨row', List.mem_cons_of_mem _ hrow', hc⟩

theorem scoreRows_score (q : Vec) (rows : List ChunkRow) (cache : CacheMap Nat Vec)
    (c : Candidate) (h : some c ∈ (scoreRows q rows cache).1) :
    ∃ v, c.score = cosineSimilarity q v
      ∧ ((∃ row ∈ rows, row.embedding = some v) ∨ ∃ id, (id, v) ∈ cache) := by
  induction rows generalizing cache with
  | nil => simp [scoreRows] at h
  | cons row rest ih =>
    rw [scoreRows] at h
    simp only [List.mem_cons] at h
    rcases h with h | h
    · rcases hp : (parseVectorForChunk row cache).1 with _ | v
      · rw [hp] at h; simp at h
      · rw [hp] at h
        simp only [Option.some.injEq] at h
        subst h
        refine ⟨v, rfl, ?_⟩
        rcases parseVectorForChunk_fst row cache v hp with hc | hc
        · exact Or.inr ⟨row.id, hc⟩
        · exact Or.inl ⟨row, List.mem_cons_self _ _, hc⟩
    · rcases ih _ h with ⟨v, hv, hsrc⟩
      refine ⟨v, hv, ?_⟩
      rcases hsrc with ⟨row', hrow', hemb⟩ | ⟨id, hid⟩
      · exact Or.inl ⟨row', List.mem_cons_of_mem _ hrow', hemb⟩
      · rcases parseVectorForChunk_snd row cache _ hid with hc | ⟨w, hw, he⟩
        · exact Or.inr ⟨id, hc⟩
        · injection he with he1 he2
          subst he2
          exact Or.inl ⟨row, List.mem_cons_self _ _, hw⟩

theorem mem_similaritySearch (args : SearchArgs) (db : ChunkDb) (cache : CacheMap Nat Vec)
    (c : Candidate) (h : c ∈ (similaritySearch args db cache).1) :
    some c ∈ (scoreRows args.queryEmbedding
      (selectChunksBySession db args.sessionId args.limit args.offset) cache).1
    ∧ 0 ≤ c.score := by
  unfold similaritySearch at h
  simp only at h
  have h1 := List.take_subset _ _ h
  have h2 := (List.mergeSort_perm _ scoreDescLe).mem_iff.mp h1
  have h3 := List.mem_filter.mp h2
  refine ⟨List.reduceOption_mem_iff.mp h3.1, ?_⟩
  have := h3.2
  exact of_decide_eq_true this

theorem similaritySearch_score_nonneg (args : SearchArgs) (db : ChunkDb)
    (cache : CacheMap Nat Vec) (c : Candidate) (h : c ∈ (similaritySearch args db cache).1) :
    0 ≤ c.score :=
  (mem_similaritySearch args db cache c h).2

theorem scoreRows_all_neg (q : Vec) (rows : List ChunkRow) (cache : CacheMap Nat Vec)
    (hrows : ∀ row ∈ rows, ∀ v, row.embedding = some v → cosineSimilarity q v < 0)
    (hcache : ∀ e ∈ cache, cosineSimilarity q e.2 < 0)
    (c : Candidate) (h : some c ∈ (scoreRows q rows cache).1) : c.score < 0 := by
  rcases scoreRows_score q rows cache c h with ⟨v, hv, hsrc⟩
  rw [hv]
  rcases hsrc with ⟨row, hrow, hemb⟩ | ⟨id, hid⟩
  · exact hrows row hrow v hemb
  · exact hcache (id, v) hid

theorem cosineSimilarity_formula (a b : Vec) (hlen : a.length = b.length)
    (ha : sumSquares a ≠ 0) (hb : sumSquares b ≠ 0) :
    cosineSimilarity a b
      = (dotProduct a b : ℝ) / (Real.sqrt (sumSquares a) * Real.sqrt (sumSquares b)) := by
  unfold cosineSimilarity
  rw [if_neg (by simp [hlen]), if_neg (by simp [ha, hb])]

theorem cosineSimilarity_sentinel (a b : Vec)
    (h : a.length ≠ b.length ∨ sumSquares a = 0 ∨ sumSquares b = 0) :
    cosineSimilarity a b = -1 := by
  unfold cosineSimilarity
  by_cases hlen : a.length ≠ b.length
  · rw [if_pos hlen]
  · rw [if_neg hlen]
    rcases h with h | h
    · exact absurd h hlen
    · rw [if_pos h]

theorem cosineSimilarity_neg_unit : cosineSimilarity [-1, 0] [1, 0] = -1 := by
  have ha : sumSquares [-1, 0] = 1 := by norm_num [sumSquares]
  have hb : sumSquares [1, 0] = 1 := by norm_num [sumSquares]
  have hd : dotProduct [-1, 0] [1, 0] = -1 := by norm_num [dotProduct]
  rw [cosineSimilarity_formula [-1, 0] [1, 0] rfl (by rw [ha]; norm_num) (by rw [hb]; norm_num),
    ha, hb, hd]
  simp [Real.sqrt_one]

/-! ### Cosine sentinel and candidate filtering (C8) -/

/-- C8.  For equal-length vectors of nonzero magnitude,
`cosineSimilarity` is `dot(a,b) / (|a| * |b|)`; for a dimension mismatch
or a zero magnitude it returns the sentinel `-1` (without throwing — it is
a total function), and `-1` is distinct from `0`; and `similaritySearch`
never returns a candidate with a negative score, so sentinel-scored
candidates are excluded before ranking rather than scored as zero. -/
theorem cosine_sentinel_and_exclusion (a b : Vec) (args : SearchArgs) (db : ChunkDb)
    (cache : CacheMap Nat Vec) :
    (a.length = b.length → sumSquares a ≠ 0 → sumSquares b ≠ 0 →
      cosineSimilarity a b = (dotProduct a b : ℝ) / (magnitude a * magnitude b))
    ∧ (a.length ≠ b.length ∨ sumSquares a = 0 ∨ sumSquares b = 0 →
        cosineSimilarity a b = -1 ∧ ((-1 : ℝ) ≠ 0))
    ∧ ((similaritySearch args db cache).1.filter
        (fun c => @decide _ (Classical.propDecidable (c.score < 0)))) = [] := by
  refine ⟨?_, ?_, ?_⟩
  · intro hlen ha hb
    exact cosineSimilarity_formula a b hlen ha hb
  · intro h
    exact ⟨cosineSimilarity_sentinel a b h, by norm_num⟩
  · rw [List.filter_eq_nil_iff]
    intro c hc
    have h0 := similaritySearch_score_nonneg args db cache c hc
    simp only [decide_eq_true_eq]
    exact not_lt.mpr h0

/-- Witness for C8: the formula conjunct at `a = b = [1, 0]`, the sentinel
conjunct at the length-mismatched pair `[]` and `[1]` and at the
zero-magnitude pair `[0, 0]` and `[1, 0]`, and the exclusion conjunct at
the one-segment corpus. -/
theorem cosine_sentinel_and_exclusion_witness :
    cosineSimilarity [1, 0] [1, 0]
        = (dotProduct [1, 0] [1, 0] : ℝ) / (magnitude [1, 0] * magnitude [1, 0])
    ∧ (cosineSimilarity [] [1] = -1 ∧ ((-1 : ℝ) ≠ 0))
    ∧ (cosineSimilarity [0, 0] [1, 0] = -1 ∧ ((-1 : ℝ) ≠ 0))
    ∧ ((similaritySearch { sessionId := 1, queryEmbedding := [1, 0] } negCorpusDb []).1.filter
        (fun c => @decide _ (Classical.propDecidable (c.score < 0)))) = [] := by
  refine ⟨?_, ?_, ?_, ?_⟩
  · exact (cosine_sentinel_and_exclusion [1, 0] [1, 0]
      { sessionId := 1, queryEmbedding := [1, 0] } emptyChunkDb []).1 rfl
      (by norm_num [sumSquares]) (by norm_num [sumSquares])
  · exact (cosine_sentinel_and_exclusion [] [1]
      { sessionId := 1, queryEmbedding := [1, 0] } emptyChunkDb []).2.1 (by simp)
  · exact (cosine_sentinel_and_exclusion [0, 0] [1, 0]
      { sessionId := 1, queryEmbedding := [1, 0] } emptyChunkDb []).2.1
      (by right; left; norm_num [sumSquares])
  · exact (cosine_sentinel_and_exclusion [1, 0] [1, 0]
      { sessionId := 1, queryEmbedding := [1, 0] } negCorpusDb []).2.2

/-! ### Negative-similarity segments are excluded (C10) -/

/-- C10.  `similaritySearch` only ever returns candidates whose score is
at least `0` (every returned candidate passes the `score >= 0` filter),
and when every stored vector of the scanned page — and every cached
vector — scores strictly negative against the query, the search returns
zero candidates even though the session has indexed segments. -/
theorem negative_similarity_excluded (args : SearchArgs) (db : ChunkDb)
    (cache : CacheMap Nat Vec) :
    ((similaritySearch args db cache).1.all
        (fun c => @decide _ (Classical.propDecidable (0 ≤ c.score))) = true)
    ∧ ((∀ row ∈ selectChunksBySession db args.sessionId args.limit args.offset,
          ∀ v, row.embedding = some v → cosineSimilarity args.queryEmbedding v < 0) →
        (∀ e ∈ cache, cosineSimilarity args.queryEmbedding e.2 < 0) →
        (similaritySearch args db cache).1 = []) := by
  constructor
  · rw [List.all_eq_true]
    intro c hc
    exact decide_eq_true (similaritySearch_score_nonneg args db cache c hc)
  · intro hrows hcache
    unfold similaritySearch
    simp only
    have hfilter :
        ((scoreRows args.queryEmbedding
            (selectChunksBySession db args.sessionId args.limit args.offset)
            cache).1.reduceOption.filter
          (fun c => @decide _ (Classical.propDecidable (0 ≤ c.score)))) = [] := by
      rw [List.filter_eq_nil_iff]
      intro c hc
      have hneg := scoreRows_all_neg args.queryEmbedding _ cache hrows hcache c
        (List.reduceOption_mem_iff.mp hc)
      simp only [decide_eq_true_eq]
      exact not_le.mpr hneg
    rw [hfilter, List.mergeSort_nil, List.take_nil]

/-- Witness for C10: the query `[-1, 0]` against the one-segment corpus
whose only vector is `[1, 0]` (cosine `-1`), starting from an empty
cache: the search returns no candidates. -/
theorem negative_similarity_excluded_witness :
    (similaritySearch { sessionId := 1, queryEmbedding := [-1, 0] } negCorpusDb []).1 = [] := by
  have hsel : selectChunksBySession negCorpusDb 1 300 0 = [negCorpusRow] := by
    have hrows : negCorpusDb.rows = [negCorpusRow] := rfl
    unfold selectChunksBySession
    rw [hrows]
    rw [show List.filter (fun r => decide (r.sessionId = 1)) [negCorpusRow] = [negCorpusRow]
      from rfl]
    rw [List.mergeSort_singleton]
    rfl
  refine (negative_similarity_excluded
    { sessionId := 1, queryEmbedding := [-1, 0] } negCorpusDb []).2 ?_ ?_
  · intro row hrow v hv
    rw [show ({ sessionId := 1, queryEmbedding := [-1, 0] } : SearchArgs).sessionId = 1
      from rfl] at hrow
    rw [hsel] at hrow
    rw [List.mem_singleton] at hrow
    subst hrow
    have : v = [1, 0] := by
      have : (negCorpusRow.embedding = some v) := hv
      rw [show negCorpusRow.embedding = some [1, 0] from rfl] at this
      injection this with h
      exact h.symm
    subst this
    rw [cosineSimilarity_neg_unit]
    norm_num
  · intro e he
    simp at he

/-! ### Single-page scan misses the needle (C1) -/

theorem insertChunkRows_sessionId (sid : Nat) (pid : Option Nat) (now : Nat)
    (items : List ChunkItem) (n : Nat) :
    ∀ row ∈ insertChunkRows sid pid now items n, row.sessionId = sid := by
  induction items generalizing n with
  | nil => intro row hrow; simp [insertChunkRows] at hrow
  | cons item rest ih =>
    intro row hrow
    rw [insertChunkRows] at hrow
    rcases List.mem_cons.mp hrow with h | h
    · rw [h]
    · exact ih _ row h

theorem insertChunkRows_createdAt (sid : Nat) (pid : Option Nat) (now : Nat)
    (items : List ChunkItem) (n : Nat) :
    ∀ row ∈ insertChunkRows sid pid now items n, row.createdAt = now := by
  induction items generalizing n with
  | nil => intro row hrow; simp [insertChunkRows] at hrow
  | cons item rest ih =>
    intro row hrow
    rw [insertChunkRows] at hrow
    rcases List.mem_cons.mp hrow with h | h
    · rw [h]
    · exact ih _ row h

theorem insertChunkRows_map_id (sid : Nat) (pid : Option Nat) (now : Nat)
    (items : List ChunkItem) (n : Nat) :
    (insertChunkRows sid pid now items n).map ChunkRow.id = List.range' n items.length := by
  induction items generalizing n with
  | nil => rfl
  | cons item rest ih =>
    rw [insertChunkRows, List.map_cons, List.length_cons, List.range'_succ, ih]

theorem insertChunkRows_map_text (sid : Nat) (pid : Option Nat) (now : Nat)
    (items : List ChunkItem) (n : Nat) :
    (insertChunkRows sid pid now items n).map ChunkRow.text = items.map ChunkItem.text := by
  induction items generalizing n with
  | nil => rfl
  | cons item rest ih => rw [insertChunkRows, List.map_cons, List.map_cons, ih]

theorem retrievalTestDb_rows :
    retrievalTestDb.rows = insertChunkRows 1 none 0 retrievalTestItems 0 := rfl

theorem retrievalTestItems_length : retrievalTestItems.length = 360 := by
  simp [retrievalTestItems]

theorem retrievalPage_eq :
    selectChunksBySession retrievalTestDb 1 300 0
      = (insertChunkRows 1 none 0 retrievalTestItems 0).take 300 := by
  unfold selectChunksBySession
  rw [retrievalTestDb_rows]
  rw [List.filter_eq_self.mpr (fun row hrow =>
    decide_eq_true (insertChunkRows_sessionId 1 none 0 retrievalTestItems 0 row hrow))]
  rw [List.mergeSort_of_sorted (List.pairwise_of_forall_mem_list (fun a ha b hb => by
    unfold createdAtDescLe
    rw [insertChunkRows_createdAt 1 none 0 retrievalTestItems 0 a ha,
      insertChunkRows_createdAt 1 none 0 retrievalTestItems 0 b hb]
    decide))]
  rw [List.drop_zero]

set_option maxRecDepth 4000 in
theorem retrievalPage_map_id :
    (selectChunksBySession retrievalTestDb 1 300 0).map ChunkRow.id = List.range' 0 300 := by
  rw [retrievalPage_eq, List.map_take, insertChunkRows_map_id, retrievalTestItems_length]
  decide

theorem fillerTexts_take :
    (selectChunksBySession retrievalTestDb 1 300 0).map ChunkRow.text
      = ((List.range 359).map (fun i => "filler chunk " ++ toString i)).take 300 := by
  rw [retrievalPage_eq, List.map_take, insertChunkRows_map_text]
  rw [show retrievalTestItems.map ChunkItem.text
      = (List.range 359).map (fun i => "filler chunk " ++ toString i) ++ ["needle chunk"] by
    simp [retrievalTestItems, fillerItem, needleItem, List.map_map]]
  rw [List.take_append_of_le_length (by simp)]

set_option maxRecDepth 20000 in
/-- C1 (code evaluation at the failing input).  The corpus of the
repository's retrieval-accuracy test — 360 segments in one session, the
uniquely maximally-similar needle stored last (row id 359), query
`[1, 0]`, `topK = 1`, the test's `pageSize: 100` ignored in favor of the
source defaults `limit = 300, offset = 0` — contains the needle, yet
`similaritySearch` never returns it: the single SQL page (`LIMIT 300
OFFSET 0`) excludes row 359 and no further page is ever fetched, so no
returned candidate has the needle's id or text. -/
theorem needle_beyond_first_page_missed :
    ("needle chunk" ∈ retrievalTestDb.rows.map ChunkRow.text)
    ∧ (359 ∈ retrievalTestDb.rows.map ChunkRow.id)
    ∧ 359 ∉ (similaritySearch retrievalSearchArgs retrievalTestDb []).1.map Candidate.chunkId
    ∧ "needle chunk"
        ∉ (similaritySearch retrievalSearchArgs retrievalTestDb []).1.map Candidate.text := by
  refine ⟨?_, ?_, ?_, ?_⟩
  · rw [retrievalTestDb_rows, insertChunkRows_map_text]
    simp [retrievalTestItems, needleItem]
  · rw [retrievalTestDb_rows, insertChunkRows_map_id, retrievalTestItems_length]
    rw [List.mem_range']
    exact ⟨359, by omega, by omega⟩
  · intro hmem
    rcases List.mem_map.mp hmem with ⟨c, hc, hid⟩
    have hpage := (mem_similaritySearch retrievalSearchArgs retrievalTestDb [] c hc).1
    rcases mem_scoreRows _ _ _ _ hpage with ⟨row, hrow, hcid, _⟩
    have : row.id ∈ (selectChunksBySession retrievalTestDb 1 300 0).map ChunkRow.id :=
      List.mem_map.mpr ⟨row, hrow, rfl⟩
    rw [retrievalPage_map_id, List.mem_range'] at this
    rcases this with ⟨i, hi, hei⟩
    rw [hid] at hcid
    omega
  · intro hmem
    rcases List.mem_map.mp hmem with ⟨c, hc, htext⟩
    have hpage := (mem_similaritySearch retrievalSearchArgs retrievalTestDb [] c hc).1
    rcases mem_scoreRows _ _ _ _ hpage with ⟨row, hrow, _, hctext⟩
    have hrowtext : row.text ∈ (selectChunksBySession retrievalTestDb 1 300 0).map ChunkRow.text :=
      List.mem_map.mpr ⟨row, hrow, rfl⟩
    rw [fillerTexts_take] at hrowtext
    have hneedle := List.take_subset _ _ hrowtext
    rw [htext] at hctext
    rw [← hctext] at hneedle
    revert hneedle
    decide

/-! ### Re-indexing duplicates segments (C2) -/

/-- C2 (code evaluation at the failing input).  Indexing document 7 with
one segment and then re-indexing it with one replacement segment — both
calls with `replacePdfChunks: true`, as indexingService passes — leaves
two rows owned by the document: `addChunks` ignores the flag, deletes
nothing, and stores no `chunkKey` (its INSERT omits that column), so the
unique `(pdfId, chunkKey)` index never fires and the prior segment
becomes a duplicate instead of being replaced. -/
theorem reindex_duplicates_segments :
    (dbAfterFirstIndex.rows.filter (fun r => decide (r.pdfId = some 7))).length = 1
    ∧ (dbAfterReindex.rows.filter (fun r => decide (r.pdfId = some 7))).length = 2 := by
  exact ⟨rfl, rfl⟩

end StudyRag
